import Mathlib

/-!
Verification development for the abstruse CI master server.

The definitions in the `Abstruse` namespace are a shallow embedding of the
repository's Go source:

* `server/abstruse.go` — `AbstruseConfig`, `NewAbstruse` (config-file
  defaulting), `Run` (listener startup and the fatal gRPC-certificate
  check), `Close` and `wait` (shutdown channel).
* `cmd/abstruse/abstruse.go` — the startup flag surface of `main`.

Components the spec describes whose implementation is not part of the
source tree here (the Worker Registry, the Job Queue and the Build
Session Manager) are modelled from the spec; each such definition carries
a doc comment saying so.
-/

namespace Abstruse

/-- Embeds `GRPCServerConfig` as consumed by `server/abstruse.go`
(fields `Port`, `Cert`, `CertKey`). -/
structure GRPCServerConfig where
  port : Nat
  cert : String
  certKey : String
deriving DecidableEq, Repr

/-- Embeds `AbstruseConfig` from `server/abstruse.go`. -/
structure AbstruseConfig where
  httpAddress : String
  httpsAddress : String
  certFile : String
  keyFile : String
  grpc : GRPCServerConfig
  dir : String
  debug : Bool
deriving DecidableEq, Repr

/-- Embeds the `Security` section of the JSON config file, as read by
`NewAbstruse` (`cfg.Security.Cert`, `cfg.Security.CertKey`). -/
structure SecurityConfig where
  cert : String
  certKey : String
deriving DecidableEq, Repr

/-- Embeds the `GRPC` section of the JSON config file, as read by
`NewAbstruse` (`cfg.GRPC.Port`, `cfg.GRPC.Cert`, `cfg.GRPC.CertKey`). -/
structure GRPCFileSection where
  port : Nat
  cert : String
  certKey : String
deriving DecidableEq, Repr

/-- The parts of the parsed config file that `NewAbstruse` consumes. -/
structure FileConfig where
  security : SecurityConfig
  grpc : GRPCFileSection
deriving DecidableEq, Repr

/-- Embeds the config-file defaulting block of `NewAbstruse`
(`server/abstruse.go`): when either member of the HTTPS cert/key pair is
empty both are replaced by the file values; when the gRPC port is 0 it is
replaced; when either member of the gRPC cert/key pair is empty both are
replaced by the file values.  Go mutates `c` in place; here the updated
configuration is returned. -/
def applyConfigDefaults (c : AbstruseConfig) (cfg : FileConfig) : AbstruseConfig :=
  let c1 :=
    if c.certFile = "" ∨ c.keyFile = "" then
      { c with certFile := cfg.security.cert, keyFile := cfg.security.certKey }
    else c
  let c2 :=
    if c1.grpc.port = 0 then
      { c1 with grpc := { c1.grpc with port := cfg.grpc.port } }
    else c1
  if c2.grpc.cert = "" ∨ c2.grpc.certKey = "" then
    { c2 with grpc := { c2.grpc with cert := cfg.grpc.cert, certKey := cfg.grpc.certKey } }
  else c2

/-- Which listeners `Run` has spawned goroutines for. -/
structure RunState where
  httpStarted : Bool
  httpsStarted : Bool
  grpcStarted : Bool
deriving DecidableEq, Repr

/-- Outcome of `Run` (`server/abstruse.go`).  `initError` is the early
return when `init` fails; `fatal` is a `log.Fatal` call (process-level
abort, `Run` never returns); `completed st r` means `Run` reached
`wait` and returned `r` (`none` while no message has arrived on the
`running` channel, `some v` once `wait` received `v`). -/
inductive RunResult where
  | initError (e : String)
  | fatal (st : RunState)
  | completed (st : RunState) (r : Option (Option String))
deriving DecidableEq, Repr

/-- Embeds the sends `Close` performs on the buffered `running` channel
(`server/abstruse.go`): when `a.server.Close()` fails its error is sent
first, and `nil` is always sent afterwards. -/
def closeSends (closeErr : Option String) : List (Option String) :=
  match closeErr with
  | some e => [some e, none]
  | none => [none]

/-- Embeds `wait` (`server/abstruse.go`): a blocking receive of the first
message sent on the `running` channel.  `none` models a receive that is
still blocked because nothing was sent. -/
def waitRecv (msgs : List (Option String)) : Option (Option String) :=
  msgs.head?

/-- Embeds `Run` (`server/abstruse.go`).  `initErr` stands for the result
of `a.init()`; `grpcListenErr` for the error, if any, that
`a.grpcserver.Listen()` would report; `msgs` for the messages sent on the
`running` channel during the run.  The HTTP goroutine is spawned exactly
when `HTTPAddress` is non-empty; the HTTPS goroutine exactly when
`HTTPSAddress`, `CertFile` and `KeyFile` are all non-empty; the gRPC
listener is started only when both `GRPCConfig.Cert` and
`GRPCConfig.CertKey` are non-empty, and otherwise `log.Fatal` aborts the
process.  A failing `Listen` also ends in `log.Fatal`. -/
def run (c : AbstruseConfig) (initErr : Option String)
    (grpcListenErr : Option String) (msgs : List (Option String)) : RunResult :=
  match initErr with
  | some e => RunResult.initError e
  | none =>
    let st : RunState :=
      { httpStarted := c.httpAddress ≠ ""
        httpsStarted := c.httpsAddress ≠ "" ∧ c.certFile ≠ "" ∧ c.keyFile ≠ ""
        grpcStarted := false }
    if c.grpc.cert ≠ "" ∧ c.grpc.certKey ≠ "" then
      let st := { st with grpcStarted := true }
      match grpcListenErr with
      | some _ => RunResult.fatal st
      | none => RunResult.completed st (waitRecv msgs)
    else
      RunResult.fatal st

/-- The startup flags registered by `main` in `cmd/abstruse/abstruse.go`:
`-http`, `-https`, `-cert`, `-certkey`, `-grpc-port`, `-grpc-cert`,
`-grpc-certkey`. -/
def mainFlags : List String :=
  ["http", "https", "cert", "certkey", "grpc-port", "grpc-cert", "grpc-certkey"]

/-- The config-file fields the server reads: `NewAbstruse` reads the
security and gRPC sections, `init` reads the database section. -/
def configFieldsConsumed : List String :=
  ["security.cert", "security.certkey", "grpc.port", "grpc.cert", "grpc.certkey",
   "database.client", "database.host", "database.port", "database.user",
   "database.password", "database.name", "database.charset"]

/-- Every startup option the program consumes: flags plus config-file
fields. -/
def startupOptions : List String := mainFlags ++ configFieldsConsumed

/-- `true` when `needle` occurs as a substring of `s`. -/
def containsSub (needle s : String) : Bool :=
  s.toList.tails.any fun t => needle.toList.isPrefixOf t

/-- `true` when some option name contains `needle` as a substring. -/
def mentionsAny (needle : String) (opts : List String) : Bool :=
  opts.any fun s => containsSub needle s

/-- Embeds the body of `main` (`cmd/abstruse/abstruse.go`): the
`AbstruseConfig` built from the parsed flag values. -/
def configFromFlags (http https cert certkey : String) (grpcPort : Nat)
    (grpcCert grpcCertKey : String) : AbstruseConfig :=
  { httpAddress := http
    httpsAddress := https
    certFile := cert
    keyFile := certkey
    grpc := { port := grpcPort, cert := grpcCert, certKey := grpcCertKey }
    dir := ""
    debug := false }

/-! ### Worker Registry (spec-modelled)

The Worker Registry implementation is not part of the source tree here;
it is modelled from the spec (§3, §4.2). -/

/-- Modelled from the spec: worker status `Connected`, `Draining` or
`Disconnected` (§3). -/
inductive WorkerStatus where
  | connected
  | draining
  | disconnected
deriving DecidableEq, Repr

/-- Modelled from the spec: a Worker has identity (the registry key),
network address, declared capacity, current free-slot count, a
last-heartbeat timestamp and a status (§3).  `freeSlots` is an integer so
that the lower bound of the slot invariant is a real statement. -/
structure Worker where
  addr : String
  capacity : Nat
  freeSlots : Int
  lastHeartbeat : Nat
  status : WorkerStatus
deriving DecidableEq, Repr

/-- Modelled from the spec: the Worker Registry maps worker ids to
workers. -/
abbrev Registry := Nat → Option Worker

/-- The registry before any worker has connected. -/
def emptyRegistry : Registry := fun _ => none

/-- Modelled from the spec: `register(workerId, capacity)` creates the
worker with all slots free, status `Connected` (§4.2). -/
def register (wid : Nat) (addr : String) (capacity : Nat) (reg : Registry) : Registry :=
  fun i =>
    if i = wid then
      some { addr := addr, capacity := capacity, freeSlots := (capacity : Int),
             lastHeartbeat := 0, status := WorkerStatus.connected }
    else reg i

/-- Modelled from the spec: `heartbeat(workerId, freeSlots, timestamp)`
updates the worker's free-slot count from the report and its liveness
clock (§4.2); the stored count is clamped to `[0, capacity]` so that the
spec's slot invariant (§3) holds at all times. -/
def heartbeat (wid : Nat) (free : Int) (ts : Nat) (reg : Registry) : Registry :=
  fun i =>
    if i = wid then
      (reg i).map fun w =>
        { w with freeSlots := max 0 (min free (w.capacity : Int)), lastHeartbeat := ts }
    else reg i

/-- Modelled from the spec: `reserveSlot(workerId) -> bool` is an atomic
decrement that fails when no slot is free (§4.2). -/
def reserveSlot (wid : Nat) (reg : Registry) : Bool × Registry :=
  match reg wid with
  | some w =>
    if 0 < w.freeSlots then
      (true, fun i => if i = wid then some { w with freeSlots := w.freeSlots - 1 } else reg i)
    else (false, reg)
  | none => (false, reg)

/-- Modelled from the spec: `releaseSlot(workerId)` returns a slot
(§4.2), never past the declared capacity (§3). -/
def releaseSlot (wid : Nat) (reg : Registry) : Registry :=
  fun i =>
    if i = wid then
      (reg i).map fun w => { w with freeSlots := min (w.freeSlots + 1) (w.capacity : Int) }
    else reg i

/-- Modelled from the spec: `markDisconnected(workerId)` (§4.2). -/
def markDisconnected (wid : Nat) (reg : Registry) : Registry :=
  fun i =>
    if i = wid then
      (reg i).map fun w => { w with status := WorkerStatus.disconnected }
    else reg i

/-- One registry operation, for reasoning about arbitrary operation
sequences. -/
inductive RegistryEvent where
  | register (wid : Nat) (addr : String) (capacity : Nat)
  | heartbeat (wid : Nat) (free : Int) (ts : Nat)
  | reserveSlot (wid : Nat)
  | releaseSlot (wid : Nat)
  | markDisconnected (wid : Nat)
deriving DecidableEq, Repr

/-- Applies one registry operation. -/
def applyEvent (e : RegistryEvent) (reg : Registry) : Registry :=
  match e with
  | RegistryEvent.register wid addr cap => register wid addr cap reg
  | RegistryEvent.heartbeat wid free ts => heartbeat wid free ts reg
  | RegistryEvent.reserveSlot wid => (reserveSlot wid reg).2
  | RegistryEvent.releaseSlot wid => releaseSlot wid reg
  | RegistryEvent.markDisconnected wid => markDisconnected wid reg

/-- Applies a sequence of registry operations in order. -/
def applyEvents (es : List RegistryEvent) (reg : Registry) : Registry :=
  es.foldl (fun r e => applyEvent e r) reg

/-- The slot invariant of §3: every worker's free-slot count lies in
`[0, capacity]`. -/
def SlotBounds (reg : Registry) : Prop :=
  ∀ wid w, reg wid = some w → 0 ≤ w.freeSlots ∧ w.freeSlots ≤ (w.capacity : Int)

/-! ### Job Queue (spec-modelled)

The Job Queue implementation is not part of the source tree here; it is
modelled from the spec (§3, §4.3). -/

/-- Modelled from the spec: a BuildRequest with identity, repository
reference, commit/ref, priority, received timestamp and source tag
(§3). -/
structure BuildRequest where
  id : Nat
  repo : String
  ref : String
  priority : Nat
  receivedAt : Nat
  source : String
deriving DecidableEq, Repr

/-- Modelled from the spec: the dequeue order of §4.3 — `a` is scheduled
no later than `b` when `a` has strictly higher priority, or equal
priority and earlier-or-equal arrival. -/
def schedLE (a b : BuildRequest) : Prop :=
  b.priority < a.priority ∨ (a.priority = b.priority ∧ a.receivedAt ≤ b.receivedAt)

instance : DecidableRel schedLE := fun a b => by
  unfold schedLE; infer_instance

instance : IsTotal BuildRequest schedLE where
  total a b := by unfold schedLE; omega

instance : IsTrans BuildRequest schedLE where
  trans a b c hab hbc := by unfold schedLE at hab hbc ⊢; omega

/-- Modelled from the spec: the Job Queue holds the pending requests in
dequeue order and carries the configured maximum depth (§4.3). -/
structure JobQueue where
  maxDepth : Nat
  items : List BuildRequest
deriving DecidableEq, Repr

/-- Modelled from the spec: the backpressure rejection signal (§7,
AdmissionBackpressure). -/
inductive EnqueueError where
  | backpressure
deriving DecidableEq, Repr

/-- Modelled from the spec: `enqueue` rejects with a backpressure signal
when the queue is at its configured maximum depth, and otherwise inserts
the request preserving the (priority descending, receivedAt ascending)
order (§4.3).  On rejection no new queue is produced, so the caller's
queue is unchanged. -/
def enqueue (q : JobQueue) (r : BuildRequest) : Except EnqueueError JobQueue :=
  if q.maxDepth ≤ q.items.length then Except.error EnqueueError.backpressure
  else Except.ok { q with items := List.orderedInsert schedLE r q.items }

/-- Modelled from the spec: `dequeue` removes and returns the
highest-priority, earliest-arrived request (§4.3). -/
def dequeue (q : JobQueue) : Option (BuildRequest × JobQueue) :=
  match q.items with
  | [] => none
  | r :: rest => some (r, { q with items := rest })

/-- Modelled from the spec: `peek` (§4.3). -/
def peek (q : JobQueue) : Option BuildRequest :=
  q.items.head?

/-- Modelled from the spec: `size` (§4.3). -/
def size (q : JobQueue) : Nat :=
  q.items.length

/-- Modelled from the spec: `cancel(requestId)` removes the request if
still queued, reporting whether it was present (§4.3). -/
def cancel (requestId : Nat) (q : JobQueue) : Bool × JobQueue :=
  (q.items.any fun r => r.id == requestId,
   { q with items := q.items.filter fun r => r.id != requestId })

/-- The queue states reachable through the queue's own operations. -/
inductive Reachable : JobQueue → Prop where
  | empty (d : Nat) : Reachable { maxDepth := d, items := [] }
  | enq {q : JobQueue} {r : BuildRequest} {q' : JobQueue} :
      Reachable q → enqueue q r = Except.ok q' → Reachable q'
  | deq {q : JobQueue} {r : BuildRequest} {q' : JobQueue} :
      Reachable q → dequeue q = some (r, q') → Reachable q'
  | drop {q : JobQueue} (requestId : Nat) :
      Reachable q → Reachable (cancel requestId q).2

/-! ### Build Session Manager (spec-modelled)

The Build Session Manager implementation is not part of the source tree
here; it is modelled from the spec (§3, §4.5). -/

/-- Modelled from the spec: the session states of §4.5. -/
inductive SessionState where
  | queued
  | dispatched
  | running
  | succeeded
  | failed
  | cancelled
  | lost
deriving DecidableEq, Repr

/-- Modelled from the spec: a BuildSession with the request's identity, a
nullable assigned worker, a state, a retry count and the accumulated log
offset (§3). -/
structure BuildSession where
  id : Nat
  assignedWorker : Option Nat
  state : SessionState
  retryCount : Nat
  logOffset : Nat
deriving DecidableEq, Repr

/-- Modelled from the spec: resolution of a session that transitioned to
`Lost` (§4.5): with retries remaining it becomes a fresh `Queued` entry
with the retry count incremented and no assigned worker; with retries
exhausted it finalizes as `Failed`. -/
def resolveLost (maxRetryCount : Nat) (s : BuildSession) : BuildSession :=
  if s.retryCount < maxRetryCount then
    { s with state := SessionState.queued, assignedWorker := none,
             retryCount := s.retryCount + 1 }
  else
    { s with state := SessionState.failed }

/-! ### Concrete sample values used by the witnesses -/

/-- A sample request of priority 5 received at time 0. -/
def reqA : BuildRequest :=
  { id := 1, repo := "org/repo", ref := "main", priority := 5, receivedAt := 0, source := "hook" }

/-- A sample request of priority 10 received at time 1. -/
def reqB : BuildRequest :=
  { id := 2, repo := "org/repo", ref := "main", priority := 10, receivedAt := 1, source := "hook" }

/-- The queue holding `reqB` before `reqA`, as produced by enqueueing
`reqA` then `reqB` into an empty queue of depth 2. -/
def sampleQueue : JobQueue :=
  { maxDepth := 2, items := [reqB, reqA] }

/-- A sample configuration whose gRPC certificate material is present. -/
def sampleConfig : AbstruseConfig :=
  configFromFlags "0.0.0.0:80" "" "" "" 3330 "/tls/grpc.pem" "/tls/grpc.key"

/-- A sample configuration whose gRPC certificate path is empty. -/
def sampleConfigNoCert : AbstruseConfig :=
  configFromFlags "0.0.0.0:80" "0.0.0.0:443" "" "" 3330 "" ""

/-! ## Theorems -/

/-- The empty registry satisfies the slot bounds. -/
theorem slotBounds_empty : SlotBounds emptyRegistry := by
  intro wid w h
  cases h

/-- Every single registry operation preserves the slot bounds. -/
theorem slotBounds_applyEvent (e : RegistryEvent) {reg : Registry}
    (h : SlotBounds reg) : SlotBounds (applyEvent e reg) := by
  cases e with
  | register wid addr cap =>
    intro i w hw
    simp only [applyEvent] at hw
    unfold register at hw
    by_cases hi : i = wid
    · rw [if_pos hi] at hw
      injection hw with hw
      subst hw
      dsimp only
      omega
    · rw [if_neg hi] at hw
      exact h i w hw
  | heartbeat wid free ts =>
    intro i w hw
    simp only [applyEvent] at hw
    unfold heartbeat at hw
    by_cases hi : i = wid
    · rw [if_pos hi] at hw
      cases hr : reg i with
      | none => rw [hr] at hw; cases hw
      | some w0 =>
        rw [hr] at hw
        injection hw with hw
        subst hw
        have := h i w0 hr
        dsimp only
        omega
    · rw [if_neg hi] at hw
      exact h i w hw
  | reserveSlot wid =>
    intro i w hw
    simp only [applyEvent] at hw
    unfold reserveSlot at hw
    split at hw
    next w0 hr =>
      split at hw
      next hpos =>
        dsimp only at hw
        by_cases hi : i = wid
        · rw [if_pos hi] at hw
          injection hw with hw
          subst hw
          have := h wid w0 hr
          dsimp only
          omega
        · rw [if_neg hi] at hw
          exact h i w hw
      next hpos =>
        exact h i w hw
    next hr =>
      exact h i w hw
  | releaseSlot wid =>
    intro i w hw
    simp only [applyEvent] at hw
    unfold releaseSlot at hw
    by_cases hi : i = wid
    · rw [if_pos hi] at hw
      cases hr : reg i with
      | none => rw [hr] at hw; cases hw
      | some w0 =>
        rw [hr] at hw
        injection hw with hw
        subst hw
        have := h i w0 hr
        dsimp only
        omega
    · rw [if_neg hi] at hw
      exact h i w hw
  | markDisconnected wid =>
    intro i w hw
    simp only [applyEvent] at hw
    unfold markDisconnected at hw
    by_cases hi : i = wid
    · rw [if_pos hi] at hw
      cases hr : reg i with
      | none => rw [hr] at hw; cases hw
      | some w0 =>
        rw [hr] at hw
        injection hw with hw
        subst hw
        exact h i w0 hr
    · rw [if_neg hi] at hw
      exact h i w hw

/-- Any sequence of registry operations preserves the slot bounds. -/
theorem slotBounds_applyEvents (es : List RegistryEvent) {reg : Registry}
    (h : SlotBounds reg) : SlotBounds (applyEvents es reg) := by
  induction es generalizing reg with
  | nil => exact h
  | cons e es ih => exact ih (slotBounds_applyEvent e h)

/-- C2: for every worker and every state of the registry reachable by
register, heartbeat, reserveSlot, releaseSlot and markDisconnected
operations from the empty registry, the free-slot count satisfies
`0 ≤ freeSlots ≤ capacity`. -/
theorem registry_free_slot_bounds (es : List RegistryEvent) (wid : Nat) (w : Worker)
    (h : applyEvents es emptyRegistry wid = some w) :
    0 ≤ w.freeSlots ∧ w.freeSlots ≤ (w.capacity : Int) :=
  slotBounds_applyEvents es slotBounds_empty wid w h

/-- Witness for C2: a register / reserve / heartbeat sequence on worker 1
leaves it with 2 free slots out of capacity 2, within bounds. -/
theorem registry_free_slot_bounds_witness :
    0 ≤ (Worker.mk "w1" 2 2 7 WorkerStatus.connected).freeSlots ∧
      (Worker.mk "w1" 2 2 7 WorkerStatus.connected).freeSlots ≤
        ((Worker.mk "w1" 2 2 7 WorkerStatus.connected).capacity : Int) :=
  registry_free_slot_bounds
    [RegistryEvent.register 1 "w1" 2, RegistryEvent.reserveSlot 1,
     RegistryEvent.heartbeat 1 5 7]
    1 (Worker.mk "w1" 2 2 7 WorkerStatus.connected) (by decide)

/-- C7: processing the same `Heartbeat(workerId, freeSlots, timestamp)`
twice leaves the registry — free-slot accounting and liveness clock alike
— exactly as processing it once. -/
theorem heartbeat_idempotent (wid : Nat) (free : Int) (ts : Nat) (reg : Registry) :
    heartbeat wid free ts (heartbeat wid free ts reg) = heartbeat wid free ts reg := by
  funext i
  unfold heartbeat
  by_cases hi : i = wid
  · rw [if_pos hi, if_pos hi]
    cases reg i with
    | none => rfl
    | some w => rfl
  · rw [if_neg hi, if_neg hi]

/-- Every queue state reachable through the queue operations keeps its
items sorted in dequeue order. -/
theorem reachable_sorted {q : JobQueue} (hq : Reachable q) :
    q.items.Sorted schedLE := by
  induction hq with
  | empty d => exact List.sorted_nil
  | enq hq he ih =>
    rename_i q r q'
    unfold enqueue at he
    split at he
    · cases he
    · injection he with he
      subst he
      exact ih.orderedInsert r q.items
  | deq hq hd ih =>
    rename_i q r q'
    unfold dequeue at hd
    split at hd
    · cases hd
    · next a rest hitems =>
      injection hd with hd
      cases hd
      rw [hitems] at ih
      exact ih.of_cons
  | drop rid hq ih =>
    exact ih.filter _

/-- C3: in every reachable queue, a strictly higher-priority request sits
strictly earlier in dequeue order than a lower-priority one regardless of
arrival order, and within equal priority the earlier-arrived request sits
earlier. -/
theorem queue_priority_order (q : JobQueue) (hq : Reachable q)
    (i j : Fin q.items.length) :
    ((q.items.get i).priority < (q.items.get j).priority → (j : Nat) < (i : Nat))
    ∧ ((q.items.get i).priority = (q.items.get j).priority →
        (q.items.get j).receivedAt < (q.items.get i).receivedAt → (j : Nat) < (i : Nat)) := by
  have hs := reachable_sorted hq
  constructor
  · intro hp
    by_contra hij
    rcases Nat.lt_or_ge (i : Nat) (j : Nat) with hlt | hge
    · have hrel := hs.rel_get_of_lt (show i < j from hlt)
      unfold schedLE at hrel
      omega
    · have hij' : (i : Nat) = (j : Nat) := by omega
      have : i = j := Fin.ext hij'
      subst this
      omega
  · intro hp hr
    by_contra hij
    rcases Nat.lt_or_ge (i : Nat) (j : Nat) with hlt | hge
    · have hrel := hs.rel_get_of_lt (show i < j from hlt)
      unfold schedLE at hrel
      omega
    · have hij' : (i : Nat) = (j : Nat) := by omega
      have : i = j := Fin.ext hij'
      subst this
      omega

/-- Witness for C3: with `reqA` (priority 5, t = 0) enqueued before
`reqB` (priority 10, t = 1), the resulting queue holds `reqB` at
position 0 and `reqA` at position 1, so `reqB` is dequeued first. -/
theorem queue_priority_order_witness :
    ((sampleQueue.items.get ⟨1, by decide⟩).priority <
        (sampleQueue.items.get ⟨0, by decide⟩).priority → (0 : Nat) < (1 : Nat))
    ∧ ((sampleQueue.items.get ⟨1, by decide⟩).priority =
          (sampleQueue.items.get ⟨0, by decide⟩).priority →
        (sampleQueue.items.get ⟨0, by decide⟩).receivedAt <
          (sampleQueue.items.get ⟨1, by decide⟩).receivedAt → (0 : Nat) < (1 : Nat)) :=
  queue_priority_order sampleQueue
    (Reachable.enq (q := { maxDepth := 2, items := [reqA] }) (r := reqB)
      (Reachable.enq (q := { maxDepth := 2, items := [] }) (r := reqA)
        (Reachable.empty 2) rfl)
      rfl)
    ⟨1, by decide⟩ ⟨0, by decide⟩

/-- C4: an enqueue against a queue at its configured maximum depth fails
with the backpressure rejection (leaving the caller's queue value
untouched), and every successful enqueue keeps all previously accepted
requests in the queue. -/
theorem enqueue_backpressure (q : JobQueue) (r : BuildRequest)
    (h : q.maxDepth ≤ q.items.length) :
    enqueue q r = Except.error EnqueueError.backpressure
    ∧ ∀ (q₂ q₂' : JobQueue) (r₂ : BuildRequest),
        enqueue q₂ r₂ = Except.ok q₂' → ∀ x ∈ q₂.items, x ∈ q₂'.items := by
  constructor
  · unfold enqueue
    rw [if_pos h]
  · intro q₂ q₂' r₂ he x hx
    unfold enqueue at he
    split at he
    · cases he
    · injection he with he
      subst he
      exact (List.mem_orderedInsert schedLE).mpr (Or.inr hx)

/-- Witness for C4: the depth-2 queue holding `reqB` and `reqA` rejects a
further enqueue of a fresh request with backpressure. -/
theorem enqueue_backpressure_witness :
    enqueue sampleQueue (BuildRequest.mk 3 "org/repo" "main" 1 2 "hook")
        = Except.error EnqueueError.backpressure
    ∧ ∀ (q₂ q₂' : JobQueue) (r₂ : BuildRequest),
        enqueue q₂ r₂ = Except.ok q₂' → ∀ x ∈ q₂.items, x ∈ q₂'.items :=
  enqueue_backpressure sampleQueue (BuildRequest.mk 3 "org/repo" "main" 1 2 "hook")
    (by decide)

/-- C5: resolving a `Lost` session with retries remaining yields a fresh
`Queued` entry with the retry count incremented by one and no assigned
worker; with retries exhausted it yields terminal `Failed`; either way
the retry count never exceeds the configured maximum. -/
theorem lost_retry_policy (m : Nat) (s : BuildSession) (hs : s.retryCount ≤ m) :
    (s.retryCount < m →
        (resolveLost m s).state = SessionState.queued ∧
        (resolveLost m s).retryCount = s.retryCount + 1 ∧
        (resolveLost m s).assignedWorker = none)
    ∧ (m ≤ s.retryCount → (resolveLost m s).state = SessionState.failed)
    ∧ (resolveLost m s).retryCount ≤ m := by
  unfold resolveLost
  by_cases h : s.retryCount < m
  · rw [if_pos h]
    refine ⟨fun _ => ⟨rfl, rfl, rfl⟩, fun hm => ?_, ?_⟩
    · omega
    · dsimp only
      omega
  · rw [if_neg h]
    refine ⟨fun hlt => absurd hlt h, fun _ => rfl, ?_⟩
    dsimp only
    omega

/-- Witness for C5: a lost session with 1 of 3 retries used is requeued
with retry count 2, within the maximum. -/
theorem lost_retry_policy_witness :
    ((BuildSession.mk 9 (some 4) SessionState.lost 1 0).retryCount < 3 →
        (resolveLost 3 (BuildSession.mk 9 (some 4) SessionState.lost 1 0)).state
            = SessionState.queued ∧
        (resolveLost 3 (BuildSession.mk 9 (some 4) SessionState.lost 1 0)).retryCount
            = (BuildSession.mk 9 (some 4) SessionState.lost 1 0).retryCount + 1 ∧
        (resolveLost 3 (BuildSession.mk 9 (some 4) SessionState.lost 1 0)).assignedWorker
            = none)
    ∧ (3 ≤ (BuildSession.mk 9 (some 4) SessionState.lost 1 0).retryCount →
        (resolveLost 3 (BuildSession.mk 9 (some 4) SessionState.lost 1 0)).state
            = SessionState.failed)
    ∧ (resolveLost 3 (BuildSession.mk 9 (some 4) SessionState.lost 1 0)).retryCount ≤ 3 :=
  lost_retry_policy 3 (BuildSession.mk 9 (some 4) SessionState.lost 1 0) (by decide)

/-- C9: in the `NewAbstruse` defaulting step, whenever either member of
the HTTPS cert/key pair is empty both members are overwritten with the
config-file values, and likewise for the gRPC cert/key pair — a value
supplied for only one member of a pair is discarded. -/
theorem config_pair_overwrite (c : AbstruseConfig) (cfg : FileConfig) :
    (c.certFile = "" ∨ c.keyFile = "" →
        (applyConfigDefaults c cfg).certFile = cfg.security.cert ∧
        (applyConfigDefaults c cfg).keyFile = cfg.security.certKey)
    ∧ (c.grpc.cert = "" ∨ c.grpc.certKey = "" →
        (applyConfigDefaults c cfg).grpc.cert = cfg.grpc.cert ∧
        (applyConfigDefaults c cfg).grpc.certKey = cfg.grpc.certKey) := by
  constructor
  · intro h
    rcases h with h | h <;>
      by_cases hp : c.grpc.port = 0 <;>
        by_cases hg : c.grpc.cert = "" ∨ c.grpc.certKey = "" <;>
          simp [applyConfigDefaults, h, hp, hg]
  · intro h
    by_cases h1 : c.certFile = "" ∨ c.keyFile = "" <;>
      by_cases hp : c.grpc.port = 0 <;>
        simp [applyConfigDefaults, h, h1, hp]

/-- Witness for C9: with only the key path supplied (cert path empty) the
supplied key path "/supplied.key" is discarded and both members take the
config-file values; the same holds for the gRPC pair. -/
theorem config_pair_overwrite_witness :
    ((configFromFlags "" "" "" "/supplied.key" 0 "" "/supplied-grpc.key").certFile = ""
        ∨ (configFromFlags "" "" "" "/supplied.key" 0 "" "/supplied-grpc.key").keyFile = "")
    ∧ ((applyConfigDefaults (configFromFlags "" "" "" "/supplied.key" 0 "" "/supplied-grpc.key")
          (FileConfig.mk (SecurityConfig.mk "/cfg.pem" "/cfg.key")
            (GRPCFileSection.mk 3330 "/cfg-grpc.pem" "/cfg-grpc.key"))).certFile = "/cfg.pem" ∧
        (applyConfigDefaults (configFromFlags "" "" "" "/supplied.key" 0 "" "/supplied-grpc.key")
          (FileConfig.mk (SecurityConfig.mk "/cfg.pem" "/cfg.key")
            (GRPCFileSection.mk 3330 "/cfg-grpc.pem" "/cfg-grpc.key"))).keyFile = "/cfg.key")
    ∧ ((applyConfigDefaults (configFromFlags "" "" "" "/supplied.key" 0 "" "/supplied-grpc.key")
          (FileConfig.mk (SecurityConfig.mk "/cfg.pem" "/cfg.key")
            (GRPCFileSection.mk 3330 "/cfg-grpc.pem" "/cfg-grpc.key"))).grpc.cert = "/cfg-grpc.pem" ∧
        (applyConfigDefaults (configFromFlags "" "" "" "/supplied.key" 0 "" "/supplied-grpc.key")
          (FileConfig.mk (SecurityConfig.mk "/cfg.pem" "/cfg.key")
            (GRPCFileSection.mk 3330 "/cfg-grpc.pem" "/cfg-grpc.key"))).grpc.certKey = "/cfg-grpc.key") := by
  refine ⟨Or.inl rfl, ?_, ?_⟩
  · exact (config_pair_overwrite
      (configFromFlags "" "" "" "/supplied.key" 0 "" "/supplied-grpc.key")
      (FileConfig.mk (SecurityConfig.mk "/cfg.pem" "/cfg.key")
        (GRPCFileSection.mk 3330 "/cfg-grpc.pem" "/cfg-grpc.key"))).1 (Or.inl rfl)
  · exact (config_pair_overwrite
      (configFromFlags "" "" "" "/supplied.key" 0 "" "/supplied-grpc.key")
      (FileConfig.mk (SecurityConfig.mk "/cfg.pem" "/cfg.key")
        (GRPCFileSection.mk 3330 "/cfg-grpc.pem" "/cfg-grpc.key"))).2 (Or.inl rfl)

/-- C1: when the gRPC certificate path or key path is absent, or the gRPC
listener reports an error, `Run` ends in `log.Fatal` — a process abort,
never a completed run — and with absent certificate material the gRPC
listener is never even started: there is no plaintext fallback for worker
connections. -/
theorem run_grpc_cert_fatal (c : AbstruseConfig) (lerr : Option String)
    (msgs : List (Option String))
    (h : c.grpc.cert = "" ∨ c.grpc.certKey = "" ∨ lerr ≠ none) :
    ∃ st : RunState, run c none lerr msgs = RunResult.fatal st ∧
      (c.grpc.cert = "" ∨ c.grpc.certKey = "" → st.grpcStarted = false) := by
  simp only [run]
  by_cases hc : c.grpc.cert ≠ "" ∧ c.grpc.certKey ≠ ""
  · rw [if_pos hc]
    cases lerr with
    | none =>
      rcases h with h | h | h
      · exact absurd h hc.1
      · exact absurd h hc.2
      · exact absurd rfl h
    | some e =>
      refine ⟨_, rfl, fun hcc => ?_⟩
      rcases hcc with hcc | hcc
      · exact absurd hcc hc.1
      · exact absurd hcc hc.2
  · rw [if_neg hc]
    exact ⟨_, rfl, fun _ => rfl⟩

/-- Witness for C1: with no gRPC certificate path configured, `Run` is
fatal and the gRPC listener is not started. -/
theorem run_grpc_cert_fatal_witness :
    ∃ st : RunState, run sampleConfigNoCert none none [] = RunResult.fatal st ∧
      (sampleConfigNoCert.grpc.cert = "" ∨ sampleConfigNoCert.grpc.certKey = "" →
        st.grpcStarted = false) :=
  run_grpc_cert_fatal sampleConfigNoCert none [] (Or.inl rfl)

/-- C8: with the gRPC material configured and no startup errors, `Run`
reaches `wait` and returns exactly what `Close` put on the `running`
channel: the HTTP server's close error when that close fails, `nil` when
it closes cleanly. -/
theorem run_returns_close_result (c : AbstruseConfig) (closeErr : Option String)
    (hc : c.grpc.cert ≠ "") (hk : c.grpc.certKey ≠ "") :
    ∃ st : RunState,
      run c none none (closeSends closeErr) = RunResult.completed st (some closeErr) := by
  simp only [run]
  rw [if_pos ⟨hc, hk⟩]
  refine ⟨{ httpStarted := decide (c.httpAddress ≠ "")
            httpsStarted := decide (c.httpsAddress ≠ "" ∧ c.certFile ≠ "" ∧ c.keyFile ≠ "")
            grpcStarted := true }, ?_⟩
  cases closeErr <;> rfl

/-- Witness for C8: with a failing close, `Run` returns the close error
"close failed". -/
theorem run_returns_close_result_witness :
    ∃ st : RunState,
      run sampleConfig none none (closeSends (some "close failed"))
        = RunResult.completed st (some (some "close failed")) :=
  run_returns_close_result sampleConfig (some "close failed")
    (by decide) (by decide)

/-- C10: with the gRPC material present, `Run` completes with the HTTP
listener started exactly when `HTTPAddress` is non-empty and the HTTPS
listener started exactly when `HTTPSAddress`, `CertFile` and `KeyFile`
are all non-empty — failing those conditions skips the listener with no
error — while a configuration missing gRPC certificate material is fatal
instead. -/
theorem run_listener_gating (c : AbstruseConfig) (msgs : List (Option String))
    (hc : c.grpc.cert ≠ "") (hk : c.grpc.certKey ≠ "") :
    run c none none msgs =
      RunResult.completed
        { httpStarted := decide (c.httpAddress ≠ "")
          httpsStarted := decide (c.httpsAddress ≠ "" ∧ c.certFile ≠ "" ∧ c.keyFile ≠ "")
          grpcStarted := true }
        (waitRecv msgs)
    ∧ ∀ (d : AbstruseConfig) (l : Option String) (m : List (Option String)),
        d.grpc.cert = "" ∨ d.grpc.certKey = "" →
        run d none l m =
          RunResult.fatal
            { httpStarted := decide (d.httpAddress ≠ "")
              httpsStarted := decide (d.httpsAddress ≠ "" ∧ d.certFile ≠ "" ∧ d.keyFile ≠ "")
              grpcStarted := false } := by
  constructor
  · simp only [run]
    rw [if_pos ⟨hc, hk⟩]
  · intro d l m hd
    simp only [run]
    rw [if_neg (fun hcon => hd.elim (fun h => hcon.1 h) (fun h => hcon.2 h))]

/-- Witness for C10: `sampleConfig` has an HTTP address but no HTTPS
address, so only the HTTP listener is started; the HTTPS listener is
skipped and the run still completes. -/
theorem run_listener_gating_witness :
    run sampleConfig none none [] =
      RunResult.completed
        { httpStarted := decide (sampleConfig.httpAddress ≠ "")
          httpsStarted := decide (sampleConfig.httpsAddress ≠ ""
            ∧ sampleConfig.certFile ≠ "" ∧ sampleConfig.keyFile ≠ "")
          grpcStarted := true }
        (waitRecv [])
    ∧ ∀ (d : AbstruseConfig) (l : Option String) (m : List (Option String)),
        d.grpc.cert = "" ∨ d.grpc.certKey = "" →
        run d none l m =
          RunResult.fatal
            { httpStarted := decide (d.httpAddress ≠ "")
              httpsStarted := decide (d.httpsAddress ≠ "" ∧ d.certFile ≠ "" ∧ d.keyFile ≠ "")
              grpcStarted := false } :=
  run_listener_gating sampleConfig [] (by decide) (by decide)

/-- C6 (counterexample): no startup flag and no consumed config-file
field mentions a heartbeat interval, heartbeat-miss threshold,
dispatch-ack timeout, max build duration, max retry count or max queue
depth — six of the nine options the claim enumerates have no
corresponding option in the program's startup surface. -/
theorem startup_surface_missing_options :
    mentionsAny "heartbeat" startupOptions = false
    ∧ mentionsAny "miss" startupOptions = false
    ∧ mentionsAny "ack" startupOptions = false
    ∧ mentionsAny "timeout" startupOptions = false
    ∧ mentionsAny "duration" startupOptions = false
    ∧ mentionsAny "retry" startupOptions = false
    ∧ mentionsAny "queue" startupOptions = false
    ∧ mentionsAny "depth" startupOptions = false := by
  decide

/-- C6 (amended): the startup surface consists of the seven flags
`http`, `https`, `cert`, `certkey`, `grpc-port`, `grpc-cert` and
`grpc-certkey` plus the security, gRPC and database config-file fields;
of the nine options the spec enumerates, only the worker-channel listen
address (`grpc-port`), the certificate path (`grpc-cert`) and the key
path (`grpc-certkey`) exist, while the six scheduling and liveness
options have no flag or config-file field at all. -/
theorem startup_surface_amended :
    mainFlags.length = 7
    ∧ "http" ∈ mainFlags ∧ "https" ∈ mainFlags
    ∧ "cert" ∈ mainFlags ∧ "certkey" ∈ mainFlags
    ∧ "grpc-port" ∈ mainFlags ∧ "grpc-cert" ∈ mainFlags ∧ "grpc-certkey" ∈ mainFlags
    ∧ configFieldsConsumed.length = 12
    ∧ mentionsAny "security" startupOptions = true
    ∧ mentionsAny "grpc" startupOptions = true
    ∧ mentionsAny "database" startupOptions = true
    ∧ mentionsAny "heartbeat" startupOptions = false
    ∧ mentionsAny "miss" startupOptions = false
    ∧ mentionsAny "ack" startupOptions = false
    ∧ mentionsAny "timeout" startupOptions = false
    ∧ mentionsAny "duration" startupOptions = false
    ∧ mentionsAny "retry" startupOptions = false
    ∧ mentionsAny "queue" startupOptions = false
    ∧ mentionsAny "depth" startupOptions = false := by
  decide

end Abstruse
